import Mathlib

/-!
Verification of the capability-reconciliation core of the CephFS provisioner
(`cephfs_provisioner.py`).

The program under study is Python 2 code.  Its reconciler `cap_update` is

    cap_tokens = set(orig.split(","))
    cap_tokens.discard(unwanted)
    cap_tokens.add(want)
    return ",".join(cap_tokens)

The join iterates a CPython `set`, so the exact output string depends on
CPython 2.7's string hash and its open-addressing hash table.  We embed the
program at two levels of abstraction:

* `capUpdateTokens` — the token-set contents of the reconciler's result
  (`set` contents are insertion-order independent, so a `Finset` is exact
  for membership claims);
* `cap_update` — the literal output string, via a faithful model of
  CPython 2.7 `stringobject.c` string hashing and `setobject.c` open
  addressing (table size 8 initially, probe step `i = i*5 + perturb + 1`
  with `perturb >>= 5`, dummy slots on discard, resize to the smallest
  power of two above `used*4` when `fill*3 >= size*2`, iteration in slot
  order).  All arithmetic is unsigned 64-bit, modelled as `Nat` mod `2^64`.

The authorization orchestrator `_authorize_ceph` and `create_share` are
embedded as pure functions of the responses supplied by the external rados
service; the commands they would issue are returned explicitly.
-/

namespace Cephfs

/-- `2^64`: modulus for CPython's unsigned 64-bit (`size_t` / wrapped
`long`) arithmetic. -/
def M64 : Nat := 18446744073709551616

/-- UTF-8 bytes of one character (structural, kernel-reducible; agrees
with `String.utf8EncodeChar`). -/
def utf8Bytes (c : Char) : List Nat :=
  let n := c.toNat
  if n < 128 then [n]
  else if n < 2048 then [192 + n / 64, 128 + n % 64]
  else if n < 65536 then [224 + n / 4096, 128 + (n / 64) % 64, 128 + n % 64]
  else [240 + n / 262144, 128 + (n / 4096) % 64, 128 + (n / 64) % 64, 128 + n % 64]

/-- The bytes of a string, as a Python 2 `str` stores it (UTF-8; identical
to the character codes for the ASCII strings this program handles). -/
def strBytes (s : String) : List Nat := s.data.flatMap utf8Bytes

/-- CPython 2.7 string hash (`string_hash` in `stringobject.c`, 64-bit
build, hash randomization off, the default):
`x = s[0] << 7; for c in s: x = (1000003*x) ^ c; x ^= len(s); -1 -> -2`.
The empty string hashes to 0. -/
def pyStrHash (s : String) : Nat :=
  let bs := strBytes s
  match bs with
  | [] => 0
  | b0 :: _ =>
    let x0 := (b0 <<< 7) % M64
    let x1 := bs.foldl (fun x c => ((1000003 * x) % M64) ^^^ c) x0
    let x2 := x1 ^^^ bs.length
    if x2 = M64 - 1 then M64 - 2 else x2

/-- One slot of a CPython set's hash table: unused, dummy (left by a
deletion), or an active key. -/
inductive Slot where
  | free : Slot
  | dummy : Slot
  | act : String → Slot
deriving DecidableEq, Inhabited

/-- A CPython 2.7 `set` of strings: the slot table (size always a power of
two), `fill` (active + dummy entries) and `used` (active entries). -/
structure PySet where
  slots : Array Slot
  fill : Nat
  used : Nat
deriving DecidableEq

/-- Read a table slot (in-range by construction). -/
def getSlot (t : Array Slot) (i : Nat) : Slot := t.getD i Slot.free

/-- Write a table slot (in-range by construction). -/
def setSlot (t : Array Slot) (i : Nat) (v : Slot) : Array Slot :=
  if h : i < t.size then t.set ⟨i, h⟩ v else t

/-- The probe loop of `set_lookkey` (`setobject.c`): step
`i = i*5 + perturb + 1` (unmasked, mod `2^64`), index `i & mask`
(= `i % size`, the size being a power of two), `perturb >>= 5`,
remembering the first dummy slot as `freeslot`.  The loop always
terminates because the table keeps at least one free slot; `fuel`
bounds it (64 perturb steps plus a full cycle of the table). -/
def probeFind (t : Array Slot) (key : String) : Nat → Nat → Option Nat → Nat → Nat
  | _, _, freeslot, 0 => freeslot.getD 0
  | i, perturb, freeslot, fuel + 1 =>
    let i2 := (i * 5 + perturb + 1) % M64
    let idx := i2 % t.size
    match getSlot t idx with
    | Slot.free => freeslot.getD idx
    | Slot.act k =>
      if k = key then idx else probeFind t key i2 (perturb >>> 5) freeslot fuel
    | Slot.dummy => probeFind t key i2 (perturb >>> 5) (some (freeslot.getD idx)) fuel

/-- `set_lookkey`: return the slot index for `key` with hash `h` — the
active slot holding `key` if present, otherwise the slot an insertion
would use (first dummy seen, else first free slot). -/
def lookkey (t : Array Slot) (key : String) (h : Nat) : Nat :=
  let i := h % t.size
  match getSlot t i with
  | Slot.free => i
  | Slot.act k => if k = key then i else probeFind t key i h none (64 + 2 * t.size)
  | Slot.dummy => probeFind t key i h (some i) (64 + 2 * t.size)

/-- `set_insert_key`: place `key` at the slot `set_lookkey` returns.
A free slot increments both `fill` and `used`; a dummy slot increments
only `used`; an active slot (key already present) is a no-op. -/
def insertKey (s : PySet) (key : String) (h : Nat) : PySet :=
  let idx := lookkey s.slots key h
  match getSlot s.slots idx with
  | Slot.free =>
    { slots := setSlot s.slots idx (Slot.act key), fill := s.fill + 1, used := s.used + 1 }
  | Slot.dummy =>
    { slots := setSlot s.slots idx (Slot.act key), fill := s.fill, used := s.used + 1 }
  | Slot.act _ => s

/-- Probe loop of `set_insert_clean` (used only while resizing, when the
new table holds no dummies and no duplicate keys): find the first free
slot on the probe sequence. -/
def probeClean (t : Array Slot) : Nat → Nat → Nat → Nat
  | _, _, 0 => 0
  | i, perturb, fuel + 1 =>
    let i2 := (i * 5 + perturb + 1) % M64
    let idx := i2 % t.size
    match getSlot t idx with
    | Slot.free => idx
    | _ => probeClean t i2 (perturb >>> 5) fuel

/-- `set_insert_clean`: insert into a dummy-free table. -/
def insertClean (t : Array Slot) (key : String) : Array Slot :=
  let h := pyStrHash key
  let i := h % t.size
  let idx :=
    match getSlot t i with
    | Slot.free => i
    | _ => probeClean t i h (64 + 2 * t.size)
  setSlot t idx (Slot.act key)

/-- New table size chosen by `set_table_resize`:
`newsize = 8; while newsize <= minused: newsize <<= 1`. -/
def growSize (minused : Nat) : Nat → Nat → Nat
  | 0, cur => cur
  | f + 1, cur => if cur ≤ minused then growSize minused f (cur * 2) else cur

/-- `set_table_resize`: re-insert the active keys, scanning the old table
in slot order, into a fresh table; dummies are dropped (`fill := used`). -/
def tableResize (s : PySet) (minused : Nat) : PySet :=
  let newsize := growSize minused 64 8
  let t1 := s.slots.foldl
    (fun t e =>
      match e with
      | Slot.act k => insertClean t k
      | _ => t)
    (Array.mkArray newsize Slot.free)
  { slots := t1, fill := s.used, used := s.used }

/-- `set.add` (`set_add_key`): insert, then resize to the smallest power
of two above `used*4` (`used*2` beyond 50000 elements) when
`fill*3 >= size*2`. -/
def addKey (s : PySet) (key : String) : PySet :=
  let s1 := insertKey s key (pyStrHash key)
  if s1.fill * 3 ≥ s1.slots.size * 2 then
    tableResize s1 (if s1.used > 50000 then s1.used * 2 else s1.used * 4)
  else s1

/-- `set.discard` (`set_discard_key`): if the key is present, turn its
slot into a dummy (`used` decreases, `fill` does not); absent keys are
ignored. -/
def discardKey (s : PySet) (key : String) : PySet :=
  let idx := lookkey s.slots key (pyStrHash key)
  match getSlot s.slots idx with
  | Slot.act _ =>
    { slots := setSlot s.slots idx Slot.dummy, fill := s.fill, used := s.used - 1 }
  | _ => s

/-- A fresh empty set: table of 8 free slots (`PySet_MINSIZE`). -/
def emptyPySet : PySet := { slots := Array.mkArray 8 Slot.free, fill := 0, used := 0 }

/-- `set(keys)`: add the keys one at a time. -/
def mkPySet (keys : List String) : PySet := keys.foldl addKey emptyPySet

/-- Iterating a CPython set yields the active keys in slot order. -/
def pySetElems (s : PySet) : List String :=
  s.slots.toList.filterMap
    (fun e =>
      match e with
      | Slot.act k => some k
      | _ => none)

/-- Python's `s.split(",")`: cut at every comma, keeping empty pieces;
`"".split(",") == [""]`. -/
def splitCommaAux : List Char → List Char → List String
  | [], cur => [String.mk cur.reverse]
  | c :: rest, cur =>
    if c = ',' then String.mk cur.reverse :: splitCommaAux rest []
    else splitCommaAux rest (c :: cur)

/-- `orig.split(",")` from `cap_update`. -/
def pySplit (s : String) : List String := splitCommaAux s.data []

/-- `cap_update(orig, want, unwanted)` from `_authorize_ceph`
(lines 153–163): `cap_tokens = set(orig.split(","))`;
`cap_tokens.discard(unwanted)`; `cap_tokens.add(want)`;
`return ",".join(cap_tokens)`. -/
def cap_update (orig want unwanted : String) : String :=
  let cap_tokens := mkPySet (pySplit orig)
  let cap_tokens := discardKey cap_tokens unwanted
  let cap_tokens := addKey cap_tokens want
  String.intercalate "," (pySetElems cap_tokens)

/-- The contents of the reconciler's token set, abstracted from the hash
table: `discard unwanted` is `Finset.erase`, `add want` is `insert`.
A CPython set's membership is exactly its `Finset` of keys, so this is
the exact token-set semantics of `cap_update` (only the join order of
the output string is beyond it). -/
def reconcileTokens (tokens : Finset String) (want unwanted : String) : Finset String :=
  insert want (tokens.erase unwanted)

/-- Token set of `cap_update orig want unwanted`:
`set(orig.split(","))` with `unwanted` discarded and `want` added. -/
def capUpdateTokens (orig want unwanted : String) : Finset String :=
  reconcileTokens (pySplit orig).toFinset want unwanted

/-- An auth entity as returned by the rados `auth get` family of commands:
its name (`client.<id>`), secret key, and the capability strings of the
three subsystems (absent entries are `none`, matching `caps.get(...)`). -/
structure Entity where
  entity : String
  key : String
  mds : Option String
  osd : Option String
  mon : Option String
deriving DecidableEq

/-- A rados command issued by `_authorize_ceph`, with the arguments the
code passes: `auth get`, `auth get-or-create` (create path) or
`auth caps` (update path, whose `mon` argument is an `Option` because the
code passes `cap['caps'].get('mon')`, which may be Python `None`). -/
inductive Cmd where
  | authGet (entity : String)
  | authGetOrCreate (entity mds osd mon : String)
  | authCaps (entity mds osd : String) (mon : Option String)
deriving DecidableEq

/-- Responses of the external rados service for one `_authorize_ceph`
call: the first `auth get` (`none` models the `rados.Error` exception the
code treats as "entity does not exist"), the `auth get-or-create`
response, and the post-commit `auth get` response. -/
structure RadosEnv where
  authGet : Option (List Entity)
  getOrCreate : List Entity
  authGetAfter : List Entity
deriving DecidableEq

/-- The final checks of `_authorize_ceph` (lines 195–197):
`assert len(caps) == 1`, `assert caps[0]['entity'] == client_entity`,
`return caps[0]`. -/
def checkCaps (caps : List Entity) (client_entity : String) : Except String Entity :=
  match caps with
  | [c] =>
    if c.entity = client_entity then Except.ok c
    else Except.error "AssertionError: caps[0] entity == client_entity"
  | _ => Except.error "AssertionError: len(caps) == 1"

/-- `_authorize_ceph(volume_path, auth_id, readonly)` (lines 108–197),
as a function of the externally resolved path metadata (`path` is
`_get_path(volume_path)`, `pool_name` and `namespc` the two xattr
lookups) and of the rados responses in `env`.  Returns the commands sent
to rados together with the result (`Except.error` models an uncaught
Python exception).  The comparison `want_access_level is 'rw'` of
line 148 is string equality: both `'rw'` literals of the function body
are the same interned constant in CPython. -/
def authorize_ceph (env : RadosEnv) (path pool_name namespc auth_id : String)
    (readonly : Bool) : List Cmd × Except String Entity :=
  let client_entity := "client." ++ auth_id
  let want_access_level := if readonly then "r" else "rw"
  let want_mds_cap := "allow r,allow " ++ want_access_level ++ " path=" ++ path
  let want_osd_cap :=
    "allow " ++ want_access_level ++ " pool=" ++ pool_name ++ " namespace=" ++ namespc
  match env.authGet with
  | none =>
    ([Cmd.authGet client_entity,
      Cmd.authGetOrCreate client_entity want_mds_cap want_osd_cap "allow r"],
     checkCaps env.getOrCreate client_entity)
  | some existing =>
    match existing with
    | [] => ([Cmd.authGet client_entity], Except.error "IndexError: existing[0]")
    | cap :: _ =>
      let unwanted_access_level := if want_access_level = "rw" then "r" else "rw"
      let unwanted_mds_cap := "allow " ++ unwanted_access_level ++ " path=" ++ path
      let unwanted_osd_cap :=
        "allow " ++ unwanted_access_level ++ " pool=" ++ pool_name ++ " namespace=" ++ namespc
      let osd_cap_str := cap_update (cap.osd.getD "") want_osd_cap unwanted_osd_cap
      let mds_cap_str := cap_update (cap.mds.getD "") want_mds_cap unwanted_mds_cap
      ([Cmd.authGet client_entity,
        Cmd.authCaps client_entity mds_cap_str osd_cap_str cap.mon,
        Cmd.authGet client_entity],
       checkCaps env.authGetAfter client_entity)

/-- External collaborator data consumed by `create_share`: the rados
responses, the monitor addresses, the created volume's mount path, and
the resolved path metadata used by `_authorize_ceph`. -/
structure ShareEnv where
  rados : RadosEnv
  monAddrs : List String
  mountPath : String
  resolvedPath : String
  poolName : String
  poolNamespace : String

/-- The record `create_share` serializes: `path` (export location),
`user` (entity name) and `auth` (secret key). -/
structure ShareRet where
  path : String
  user : String
  auth : String
deriving DecidableEq

/-- `create_share(path, user_id)` (lines 200–224): volume creation and
mount-path/monitor lookup are external (supplied by `env`); the
authorization call is `self._authorize_ceph(volume_path, user_id, False)`
— the `readonly` argument is the literal `False`. -/
def create_share (env : ShareEnv) (path user_id : String) :
    List Cmd × Except String ShareRet :=
  let export_location := String.intercalate "," env.monAddrs ++ ":" ++ env.mountPath
  let r := authorize_ceph env.rados env.resolvedPath env.poolName env.poolNamespace
    user_id false
  (r.1, r.2.map (fun e => { path := export_location, user := e.entity, auth := e.key }))

/-- `pat` occurs as a contiguous substring of `s` (Python's `pat in s`),
by scanning every suffix. -/
def hasSubAux (pat : List Char) : List Char → Bool
  | [] => pat.isEmpty
  | c :: rest => pat.isPrefixOf (c :: rest) || hasSubAux pat rest

/-- String containment used to state the spec's "the resulting string
contains …". -/
def strContainsSub (s pat : String) : Bool := hasSubAux pat.data s.data

/-- The `osd` capability string committed by an `auth caps` command, if
one was issued. -/
def committedOsd (cmds : List Cmd) : Option String :=
  cmds.findSome?
    (fun c =>
      match c with
      | Cmd.authCaps _ _ osd _ => some osd
      | _ => none)

/-- C1: for every existing capability string and every pair of tokens
`want ≠ unwanted`, the reconciler's token set contains `want` and not
`unwanted`; and in the concrete re-authorize-downgrade scenario (entity
exists with osd `allow rw pool=P namespace=N`, `readonly=True`) the
committed osd string contains `allow r pool=P namespace=N` and does not
contain `allow rw pool=P namespace=N`. -/
theorem C1_reconciler_want_not_unwanted (existing want unwanted : String)
    (h : unwanted ≠ want) :
    want ∈ capUpdateTokens existing want unwanted ∧
    unwanted ∉ capUpdateTokens existing want unwanted ∧
    committedOsd (authorize_ceph
        { authGet := some [{ entity := "client.u", key := "K", mds := none,
                             osd := some "allow rw pool=P namespace=N",
                             mon := some "allow r" }],
          getOrCreate := [], authGetAfter := [] }
        "/p" "P" "N" "u" true).1 = some "allow r pool=P namespace=N" ∧
    strContainsSub "allow r pool=P namespace=N" "allow r pool=P namespace=N" = true ∧
    strContainsSub "allow r pool=P namespace=N" "allow rw pool=P namespace=N" = false := by
  refine ⟨Finset.mem_insert_self _ _, ?_, by decide, by decide, by decide⟩
  simp [capUpdateTokens, reconcileTokens, h]

/-- Witness for C1 at `existing = "x"`, `want = "allow r"`,
`unwanted = "allow rw"`. -/
theorem C1_witness :
    ("allow rw" : String) ≠ "allow r" ∧
    ("allow r" ∈ capUpdateTokens "x" "allow r" "allow rw" ∧
     "allow rw" ∉ capUpdateTokens "x" "allow r" "allow rw") :=
  ⟨by decide,
   (C1_reconciler_want_not_unwanted "x" "allow r" "allow rw" (by decide)).1,
   (C1_reconciler_want_not_unwanted "x" "allow r" "allow rw" (by decide)).2.1⟩

/-- C2 counterexample: `"".split(",")` is `[""]`, not the empty list, so
the token set of `reconcile("", want, unwanted)` is not `{want}`: it
keeps a spurious empty token, and the output string starts with a bare
comma. -/
theorem C2_counterexample :
    (pySplit "").toFinset ≠ (∅ : Finset String) ∧
    capUpdateTokens "" "allow r" "allow rw" ≠ {"allow r"} ∧
    "" ∈ capUpdateTokens "" "allow r" "allow rw" ∧
    cap_update "" "allow r" "allow rw" = ",allow r" := by
  refine ⟨by decide, by decide, by decide, by decide⟩

/-- C2 amended: parsing the empty capability string yields the singleton
set containing the empty token, so for `unwanted ≠ ""` the reconciled
token set is `{want, ""}` — `want` plus the spurious empty token. -/
theorem C2_empty_parse_spurious_token (want unwanted : String) (h : unwanted ≠ "") :
    capUpdateTokens "" want unwanted = insert want {""} := by
  unfold capUpdateTokens reconcileTokens
  rw [show (pySplit "").toFinset = ({""} : Finset String) from by decide]
  rw [Finset.erase_eq_of_not_mem (by simp [h])]

/-- Witness for C2 amended at `want = "allow rw"`, `unwanted = "allow r"`. -/
theorem C2_witness :
    ("allow r" : String) ≠ "" ∧
    capUpdateTokens "" "allow rw" "allow r" = insert "allow rw" {""} :=
  ⟨by decide, C2_empty_parse_spurious_token "allow rw" "allow r" (by decide)⟩

/-- C3 counterexample: called with `want == unwanted`, `cap_update`
raises nothing — it returns normally, and the supposedly unwanted token
is in the result (the `add` after the `discard` reinstates it). -/
theorem C3_counterexample :
    capUpdateTokens "allow r" "allow rw" "allow rw" = {"allow rw", "allow r"} ∧
    "allow rw" ∈ capUpdateTokens "allow r" "allow rw" "allow rw" ∧
    cap_update "allow r" "allow rw" "allow rw" = "allow rw,allow r" := by
  refine ⟨by decide, by decide, by decide⟩

/-- C3 amended: `cap_update` performs no `want == unwanted` check and
never raises; for every `orig` and `want`, calling it with
`unwanted := want` returns normally with `want` in the token set. -/
theorem C3_want_eq_unwanted_returns (orig want : String) :
    want ∈ capUpdateTokens orig want want :=
  Finset.mem_insert_self _ _

/-- C4 counterexample: `",".join` iterates the CPython set in hash-table
slot order, not sorted order.  For `reconcile("a,b", "c", "z")` the token
set is `{"a", "b", "c"}` (whose sorted join is `"a,b,c"`), but the
output is `"a,c,b"` — the slot order of the Python 2 string hashes
(`"a"` mod 8 = 0, `"c"` mod 8 = 2, `"b"` mod 8 = 3). -/
theorem C4_counterexample :
    (pySplit (cap_update "a,b" "c" "z")).toFinset = {"a", "b", "c"} ∧
    cap_update "a,b" "c" "z" ≠ "a,b,c" := by
  refine ⟨by decide, by decide⟩

/-- C4 amended: the output string is a deterministic function of the
inputs (the embedding is a pure function, and CPython 2's default string
hash is fixed), joining the tokens in hash-table iteration order rather
than sorted order: `reconcile("a,b", "c", "z")` always yields exactly
`"a,c,b"`, whose token set is `{"a", "b", "c"}`. -/
theorem C4_join_is_table_order :
    cap_update "a,b" "c" "z" = "a,c,b" ∧
    (pySplit (cap_update "a,b" "c" "z")).toFinset = {"a", "b", "c"} := by
  refine ⟨by decide, by decide⟩

/-- C5: every token of `existing` other than the exact `unwanted` token
is preserved in the reconciled token set; in Scenario 1 both `allow r`
and `allow rw path=/a` survive, and duplicate tokens collapse. -/
theorem C5_token_preservation (orig want unwanted tok : String)
    (hmem : tok ∈ (pySplit orig).toFinset) (hne : tok ≠ unwanted) :
    tok ∈ capUpdateTokens orig want unwanted ∧
    "allow r" ∈
      capUpdateTokens "allow r,allow rw path=/a" "allow rw path=/a" "allow r path=/a" ∧
    "allow rw path=/a" ∈
      capUpdateTokens "allow r,allow rw path=/a" "allow rw path=/a" "allow r path=/a" ∧
    capUpdateTokens "allow r,allow r" "allow rw" "x" = {"allow rw", "allow r"} := by
  refine ⟨?_, by decide, by decide, by decide⟩
  exact Finset.mem_insert_of_mem (Finset.mem_erase.2 ⟨hne, hmem⟩)

/-- Witness for C5 at `orig = "a,b"`, `tok = "a"`, `unwanted = "z"`. -/
theorem C5_witness :
    ("a" ∈ (pySplit "a,b").toFinset ∧ ("a" : String) ≠ "z") ∧
    "a" ∈ capUpdateTokens "a,b" "c" "z" :=
  ⟨⟨by decide, by decide⟩,
   (C5_token_preservation "a,b" "c" "z" "a" (by decide) (by decide)).1⟩

set_option maxRecDepth 100000 in
/-- C6 counterexample: re-running the reconciler on its own output can
change the string.  Here the first call discards a present token and
adds a fresh one, pushing `fill` to 6 and so resizing the set's table to
32 slots; the second call rebuilds a table of 8 slots, and the two slot
orders join the same five tokens differently. -/
theorem C6_counterexample :
    cap_update
        (cap_update "allow rw,allow r path=/a,allow rw pool=p namespace=n,allow y,b"
          "allow r" "allow rw")
        "allow r" "allow rw" ≠
      cap_update "allow rw,allow r path=/a,allow rw pool=p namespace=n,allow y,b"
        "allow r" "allow rw" := by
  decide

set_option maxRecDepth 100000 in
/-- C6 amended: the reconciler is idempotent at the token-set level —
discarding `unwanted` and adding `want` a second time changes nothing
(for `unwanted ≠ want`) — and on the counterexample input the repeated
call preserves the token set even though the joined string differs. -/
theorem C6_set_level_idempotent (tokens : Finset String) (want unwanted : String)
    (h : unwanted ≠ want) :
    reconcileTokens (reconcileTokens tokens want unwanted) want unwanted =
      reconcileTokens tokens want unwanted ∧
    (pySplit (cap_update
        (cap_update "allow rw,allow r path=/a,allow rw pool=p namespace=n,allow y,b"
          "allow r" "allow rw")
        "allow r" "allow rw")).toFinset =
      (pySplit (cap_update "allow rw,allow r path=/a,allow rw pool=p namespace=n,allow y,b"
        "allow r" "allow rw")).toFinset := by
  constructor
  · have hu : unwanted ∉ insert want (tokens.erase unwanted) := by
      simp [h]
    simp [reconcileTokens, Finset.erase_eq_of_not_mem hu]
  · decide

/-- Witness for C6 amended at `tokens = {"a"}`, `want = "b"`,
`unwanted = "c"`. -/
theorem C6_witness :
    ("c" : String) ≠ "b" ∧
    reconcileTokens (reconcileTokens {"a"} "b" "c") "b" "c" =
      reconcileTokens {"a"} "b" "c" :=
  ⟨by decide, (C6_set_level_idempotent {"a"} "b" "c" (by decide)).1⟩

/-- C7: when the initial `auth get` fails (entity does not exist), the
orchestrator issues exactly one `auth get-or-create` carrying the
desired caps — `mds = allow r,allow <level> path=<path>`,
`osd = allow <level> pool=<pool> namespace=<namespace>` with `<level>`
`r` if readonly else `rw`, and the fixed `mon = allow r` — and no
`auth caps` (reconciliation) command. -/
theorem C7_first_creation (env : RadosEnv) (path pool ns id : String) (ro : Bool)
    (h : env.authGet = none) :
    (authorize_ceph env path pool ns id ro).1 =
      [Cmd.authGet ("client." ++ id),
       Cmd.authGetOrCreate ("client." ++ id)
         ("allow r,allow " ++ (if ro then "r" else "rw") ++ " path=" ++ path)
         ("allow " ++ (if ro then "r" else "rw") ++ " pool=" ++ pool ++ " namespace=" ++ ns)
         "allow r"] ∧
    committedOsd (authorize_ceph env path pool ns id ro).1 = none := by
  obtain ⟨ag, goc, aga⟩ := env
  cases h
  exact ⟨rfl, rfl⟩

/-- Witness for C7 at a concrete environment whose `auth get` fails,
`readonly = true`. -/
theorem C7_witness :
    ({ authGet := none, getOrCreate := [], authGetAfter := [] } : RadosEnv).authGet
      = none ∧
    (authorize_ceph { authGet := none, getOrCreate := [], authGetAfter := [] }
        "/v" "pl" "ns" "bob" true).1 =
      [Cmd.authGet "client.bob",
       Cmd.authGetOrCreate "client.bob" "allow r,allow r path=/v"
         "allow r pool=pl namespace=ns" "allow r"] :=
  ⟨rfl,
   by
    have h := (C7_first_creation
      { authGet := none, getOrCreate := [], authGetAfter := [] }
      "/v" "pl" "ns" "bob" true rfl).1
    simpa using h⟩

/-- C8: when the initial `auth get` succeeds, the committed capability
triple reconciles only `mds` and `osd` (each via `cap_update` of the
entity's current string, treating an absent entry as `""`), and passes
the fetched entity's `mon` capability through unchanged, for every
fetched entity and every `readonly` value. -/
theorem C8_update_mon_passthrough (env : RadosEnv) (path pool ns id : String)
    (ro : Bool) (cap : Entity) (rest : List Entity)
    (h : env.authGet = some (cap :: rest)) :
    (authorize_ceph env path pool ns id ro).1 =
      [Cmd.authGet ("client." ++ id),
       Cmd.authCaps ("client." ++ id)
         (cap_update (cap.mds.getD "")
           ("allow r,allow " ++ (if ro then "r" else "rw") ++ " path=" ++ path)
           ("allow " ++ (if ro then "rw" else "r") ++ " path=" ++ path))
         (cap_update (cap.osd.getD "")
           ("allow " ++ (if ro then "r" else "rw") ++ " pool=" ++ pool
             ++ " namespace=" ++ ns)
           ("allow " ++ (if ro then "rw" else "r") ++ " pool=" ++ pool
             ++ " namespace=" ++ ns))
         cap.mon,
       Cmd.authGet ("client." ++ id)] := by
  obtain ⟨ag, goc, aga⟩ := env
  cases h
  cases ro <;> rfl

/-- Witness for C8 at a concrete fetched entity (osd
`allow rw pool=P namespace=N`, mon `allow *`), `readonly = true`. -/
theorem C8_witness :
    ({ authGet := some [{ entity := "client.u", key := "K", mds := none,
                          osd := some "allow rw pool=P namespace=N",
                          mon := some "allow *" }],
       getOrCreate := [], authGetAfter := [] } : RadosEnv).authGet
      = some ({ entity := "client.u", key := "K", mds := none,
                osd := some "allow rw pool=P namespace=N",
                mon := some "allow *" } :: []) ∧
    (authorize_ceph
        { authGet := some [{ entity := "client.u", key := "K", mds := none,
                             osd := some "allow rw pool=P namespace=N",
                             mon := some "allow *" }],
          getOrCreate := [], authGetAfter := [] }
        "/p" "P" "N" "u" true).1 =
      [Cmd.authGet "client.u",
       Cmd.authCaps "client.u"
         (cap_update "" "allow r,allow r path=/p" "allow rw path=/p")
         (cap_update "allow rw pool=P namespace=N" "allow r pool=P namespace=N"
           "allow rw pool=P namespace=N")
         (some "allow *"),
       Cmd.authGet "client.u"] :=
  ⟨rfl,
   by
    have h := C8_update_mon_passthrough
      { authGet := some [{ entity := "client.u", key := "K", mds := none,
                           osd := some "allow rw pool=P namespace=N",
                           mon := some "allow *" }],
        getOrCreate := [], authGetAfter := [] }
      "/p" "P" "N" "u" true
      { entity := "client.u", key := "K", mds := none,
        osd := some "allow rw pool=P namespace=N", mon := some "allow *" }
      [] rfl
    simpa using h⟩

/-- C9: on the update path the orchestrator's last command is a
post-commit re-fetch, and the final checks accept exactly one returned
record whose name is `client.<id>` (that record becomes the result);
zero results, several results, or a name mismatch yield an uncaught
`AssertionError` (the `ConsistencyError` of the spec), never a retry. -/
theorem C9_post_commit_validation (env : RadosEnv) (path pool ns id : String)
    (ro : Bool) (cap : Entity) (rest : List Entity)
    (h : env.authGet = some (cap :: rest)) :
    (authorize_ceph env path pool ns id ro).1.getLast? =
      some (Cmd.authGet ("client." ++ id)) ∧
    (∀ e, env.authGetAfter = [e] → e.entity = "client." ++ id →
      (authorize_ceph env path pool ns id ro).2 = Except.ok e) ∧
    (env.authGetAfter.length ≠ 1 →
      (authorize_ceph env path pool ns id ro).2 =
        Except.error "AssertionError: len(caps) == 1") ∧
    (∀ e, env.authGetAfter = [e] → e.entity ≠ "client." ++ id →
      (authorize_ceph env path pool ns id ro).2 =
        Except.error "AssertionError: caps[0] entity == client_entity") := by
  obtain ⟨ag, goc, aga⟩ := env
  cases h
  refine ⟨rfl, ?_, ?_, ?_⟩
  · intro e he hent
    simp only at he
    subst he
    simp [authorize_ceph, checkCaps, hent]
  · intro hl
    match aga, hl with
    | [], _ => rfl
    | [e], hl => exact absurd rfl hl
    | e1 :: e2 :: t, _ => rfl
  · intro e he hent
    simp only at he
    subst he
    simp [authorize_ceph, checkCaps, hent]

/-- Witness for C9: concrete update-path environment whose re-fetch
returns exactly the requested entity. -/
theorem C9_witness :
    ({ authGet := some [{ entity := "client.u", key := "K", mds := none,
                          osd := none, mon := none }],
       getOrCreate := [],
       authGetAfter := [{ entity := "client.u", key := "K2", mds := none,
                          osd := none, mon := none }] } : RadosEnv).authGet
      = some ({ entity := "client.u", key := "K", mds := none,
                osd := none, mon := none } :: []) ∧
    (authorize_ceph
        { authGet := some [{ entity := "client.u", key := "K", mds := none,
                             osd := none, mon := none }],
          getOrCreate := [],
          authGetAfter := [{ entity := "client.u", key := "K2", mds := none,
                             osd := none, mon := none }] }
        "/p" "P" "N" "u" false).2 =
      Except.ok { entity := "client.u", key := "K2", mds := none,
                  osd := none, mon := none } :=
  ⟨rfl,
   (C9_post_commit_validation
      { authGet := some [{ entity := "client.u", key := "K", mds := none,
                           osd := none, mon := none }],
        getOrCreate := [],
        authGetAfter := [{ entity := "client.u", key := "K2", mds := none,
                           osd := none, mon := none }] }
      "/p" "P" "N" "u" false
      { entity := "client.u", key := "K", mds := none, osd := none, mon := none }
      [] rfl).2.1
     { entity := "client.u", key := "K2", mds := none, osd := none, mon := none }
     rfl rfl⟩

/-- C10: `create_share` always calls the authorization routine with
`readonly = False`, so the capability strings it has built are the
read-write ones on both the first-creation path and the update path:
the `mds` grant is `allow r,allow rw path=<path>` and the `osd` grant
`allow rw pool=<pool> namespace=<namespace>`, whatever the other
inputs. -/
theorem C10_create_share_readwrite (env : ShareEnv) (path user_id : String) :
    (create_share env path user_id).1 =
      (authorize_ceph env.rados env.resolvedPath env.poolName env.poolNamespace
        user_id false).1 ∧
    (env.rados.authGet = none →
      (create_share env path user_id).1 =
        [Cmd.authGet ("client." ++ user_id),
         Cmd.authGetOrCreate ("client." ++ user_id)
           ("allow r,allow rw path=" ++ env.resolvedPath)
           ("allow rw pool=" ++ env.poolName ++ " namespace=" ++ env.poolNamespace)
           "allow r"]) ∧
    (∀ cap rest, env.rados.authGet = some (cap :: rest) →
      (create_share env path user_id).1 =
        [Cmd.authGet ("client." ++ user_id),
         Cmd.authCaps ("client." ++ user_id)
           (cap_update (cap.mds.getD "")
             ("allow r,allow rw path=" ++ env.resolvedPath)
             ("allow r path=" ++ env.resolvedPath))
           (cap_update (cap.osd.getD "")
             ("allow rw pool=" ++ env.poolName ++ " namespace=" ++ env.poolNamespace)
             ("allow r pool=" ++ env.poolName ++ " namespace=" ++ env.poolNamespace))
           cap.mon,
         Cmd.authGet ("client." ++ user_id)]) := by
  obtain ⟨⟨ag, goc, aga⟩, mons, mp, rp, pl, pns⟩ := env
  refine ⟨rfl, ?_, ?_⟩
  · intro h
    cases h
    rfl
  · intro cap rest h
    simp only at h
    cases h
    rfl

/-- Witness for C10: concrete environment on the first-creation path;
the caps are the read-write ones. -/
theorem C10_witness :
    (({ rados := { authGet := none, getOrCreate := [], authGetAfter := [] },
        monAddrs := ["10.0.0.1"], mountPath := "/vol/s", resolvedPath := "/vol/s",
        poolName := "cephfs_data", poolNamespace := "fsvolumens_s" } : ShareEnv)
      |> (fun e => (create_share e "s" "alice").1)) =
      [Cmd.authGet "client.alice",
       Cmd.authGetOrCreate "client.alice" "allow r,allow rw path=/vol/s"
         "allow rw pool=cephfs_data namespace=fsvolumens_s" "allow r"] :=
  (C10_create_share_readwrite
    { rados := { authGet := none, getOrCreate := [], authGetAfter := [] },
      monAddrs := ["10.0.0.1"], mountPath := "/vol/s", resolvedPath := "/vol/s",
      poolName := "cephfs_data", poolNamespace := "fsvolumens_s" }
    "s" "alice").2.1 rfl

end Cephfs
